import Mathlib

/-!
Verification of the 5-bus AC optimal power flow model builder.

The source program builds a Pyomo model from static tables (generator data
GenD, bus demands BD, line data LN), attaches variable bounds, flow and
balance constraints and a quadratic cost objective, solves it once and
prints results.  This file embeds the tables, the derived quantities, the
constraint-generating rules, the bounds, the initial values and the
reporting code as Lean definitions and proves properties about them.
-/

namespace OPF

/-- Generator characteristics: one row of the table GenD. -/
structure GenData where
  pmax : ℚ
  pmin : ℚ
  Qmax : ℚ
  Qmin : ℚ
  b : ℚ
  deriving DecidableEq, Repr

/-- Bus demand: one row of the table BD. -/
structure DemandData where
  Pd : ℚ
  Qd : ℚ
  deriving DecidableEq, Repr

/-- Line characteristics: one row of the table LN. -/
structure LineData where
  r : ℚ
  x : ℚ
  b : ℚ
  limit : ℚ
  deriving DecidableEq, Repr

/-- Base power, Sbase = 100 MW. -/
def Sbase : ℚ := 100

/-- The bus set, `model.i` (and its alias `model.j`). -/
def buses : List Nat := [1, 2, 3, 4, 5]

/-- The generator table GenD, in the order given in the source. -/
def GenD : List (Nat × GenData) :=
  [ (1, ⟨210, 0, 315/2, -(315/2), 3⟩)
  , (3, ⟨520, 0, 390, -390, 5⟩)
  , (4, ⟨200, 0, 150, -150, 2⟩)
  , (5, ⟨600, 0, 450, -450, 1⟩) ]

/-- The bus-demand table BD. -/
def BD : List (Nat × DemandData) :=
  [ (1, ⟨100, 0⟩)
  , (2, ⟨300, 9861/100⟩)
  , (3, ⟨300, 9861/100⟩)
  , (4, ⟨400, 13147/100⟩)
  , (5, ⟨500, 0⟩) ]

/-- The line-network table LN (ordered pairs, declared in one direction). -/
def LN : List ((Nat × Nat) × LineData) :=
  [ ((1, 2), ⟨281/100000, 281/10000, 712/100000, 400⟩)
  , ((1, 3), ⟨304/100000, 304/10000, 658/100000, 400⟩)
  , ((1, 5), ⟨64/100000, 64/10000, 3126/100000, 400⟩)
  , ((2, 3), ⟨108/100000, 108/10000, 1852/100000, 400⟩)
  , ((3, 4), ⟨297/100000, 297/10000, 674/100000, 400⟩)
  , ((4, 5), ⟨297/100000, 297/10000, 674/100000, 240⟩) ]

/-- Dictionary lookup in an association list (Python `d[k]` / `k in d`). -/
def lookup {α β : Type} [DecidableEq α] (t : List (α × β)) (k : α) : Option β :=
  (t.find? (fun e => e.1 = k)).map (fun e => e.2)

/-- Lookup in the generator table. -/
def lookupGen (i : Nat) : Option GenData := lookup GenD i

/-- Lookup in the demand table. -/
def lookupBD (i : Nat) : Option DemandData := lookup BD i

/-- Lookup in the line table. -/
def lookupLN (p : Nat × Nat) : Option LineData := lookup LN p

/-- Connectivity parameter: `cx[(i,j)] = 1 if (i,j) in LN else 0`, built
for every ordered pair of buses; `cx.get((i,j), 0)` defaults to 0 outside
that index set. -/
def cx (p : Nat × Nat) : Nat :=
  if p.1 ∈ buses ∧ p.2 ∈ buses ∧ (lookupLN p).isSome then 1 else 0

/-- Susceptance `bij = 1 / LN[(i,j)].x`, computed for the pairs of LN. -/
def bij (p : Nat × Nat) : Option ℚ :=
  (lookupLN p).map (fun l => 1 / l.x)

/-- Impedance magnitude of one line row: `math.sqrt(x ** 2 + r ** 2)`. -/
noncomputable def zOf (l : LineData) : ℝ :=
  Real.sqrt ((l.x : ℝ) ^ 2 + (l.r : ℝ) ^ 2)

/-- Impedance angle of one line row: `math.atan(x / r)` when `r != 0`,
otherwise `math.pi / 2`. -/
noncomputable def thOf (l : LineData) : ℝ :=
  if l.r = 0 then Real.pi / 2 else Real.arctan ((l.x : ℝ) / (l.r : ℝ))

/-- The dictionary `z` of the source, as a function on line pairs
(0 outside the pairs of LN, where the source dictionary has no entry). -/
noncomputable def z (p : Nat × Nat) : ℝ :=
  match lookupLN p with
  | some l => zOf l
  | none => 0

/-- The dictionary `th` of the source, as a function on line pairs. -/
noncomputable def th (p : Nat × Nat) : ℝ :=
  match lookupLN p with
  | some l => thOf l
  | none => 0

/-- One assignment of real values to every decision variable of the model. -/
structure Assign where
  OF : ℝ
  Pij : Nat → Nat → ℝ
  Qij : Nat → Nat → ℝ
  Pg : Nat → ℝ
  Qg : Nat → ℝ
  Va : Nat → ℝ
  V : Nat → ℝ

/-- `eq1_rule`: the active power flow constraint for the ordered pair
(i, j), or `none` for `pyo.Constraint.Skip`. -/
def eq1_rule (a : Assign) (i j : Nat) : Option Prop :=
  if cx (i, j) = 1 then
    some (a.Pij i j =
      ((a.V i) ^ 2 * Real.cos (th (i, j)) -
        a.V i * a.V j * Real.cos (a.Va i - a.Va j + th (i, j))) / z (i, j))
  else none

/-- `eq2_rule`: the reactive power flow constraint for the ordered pair
(i, j), or `none` for `pyo.Constraint.Skip`. -/
def eq2_rule (a : Assign) (i j : Nat) : Option Prop :=
  if cx (i, j) = 1 then
    some (a.Qij i j =
      ((a.V i) ^ 2 * Real.sin (th (i, j)) -
        a.V i * a.V j * Real.sin (a.Va i - a.Va j + th (i, j))) / z (i, j))
  else none

/-- The inflow index list of bus i: the buses j with `cx.get((j,i),0)==1`,
in the iteration order of `model.j`. -/
def inflowFrom (i : Nat) : List Nat :=
  buses.filter (fun j => cx (j, i) = 1)

/-- `eq3_rule` generalised over the demand table: real power balance at
bus i when i has a demand entry, `none` (Skip) otherwise. -/
def eq3_ruleOn (bd : List (Nat × DemandData)) (a : Assign) (i : Nat) : Option Prop :=
  match lookup bd i with
  | some d => some (a.Pg i - (d.Pd : ℝ) / (Sbase : ℝ) =
      ((inflowFrom i).map (fun j => a.Pij j i)).sum)
  | none => none

/-- `eq3_rule` of the source, on the table BD. -/
def eq3_rule (a : Assign) (i : Nat) : Option Prop := eq3_ruleOn BD a i

/-- `eq4_rule` generalised over the demand table: reactive power balance at
bus i when i has a demand entry, `none` (Skip) otherwise. -/
def eq4_ruleOn (bd : List (Nat × DemandData)) (a : Assign) (i : Nat) : Option Prop :=
  match lookup bd i with
  | some d => some (a.Qg i - (d.Qd : ℝ) / (Sbase : ℝ) =
      ((inflowFrom i).map (fun j => a.Qij j i)).sum)
  | none => none

/-- `eq4_rule` of the source, on the table BD. -/
def eq4_rule (a : Assign) (i : Nat) : Option Prop := eq4_ruleOn BD a i

/-- A skipped constraint imposes nothing; a generated one must hold. -/
def satisfiesOpt (P : Option Prop) : Prop :=
  match P with
  | some p => p
  | none => True

/-- `objective_rule`: the quadratic generation cost summed over the rows of
GenD, in table order. -/
def objective_rule (a : Assign) : ℝ :=
  (GenD.map (fun g =>
    a.Pg g.1 * (g.2.b : ℝ) * (Sbase : ℝ) +
    a.Pg g.1 * a.Pg g.1 * (g.2.b : ℝ) * (Sbase : ℝ) * (Sbase : ℝ) +
    (g.2.b : ℝ))).sum

/-- Optimization sense of a Pyomo objective. -/
inductive Sense where
  | minimize
  | maximize
  deriving DecidableEq, Repr

/-- The sense passed to `pyo.Objective` in the source. -/
def objectiveSense : Sense := Sense.minimize

/-! ## Variable bounds

The source sets bounds by mutating the Pyomo variables: `setlb`/`setub` on
`Pg[i]`, `Qg[i]` for the rows of GenD, on the whole of `Va`, and on
`Pij[i,j]` for the pairs of LN.  Each function below returns the final
(lower, upper) bound state of one variable family, `none` meaning the
bound was never set. -/

/-- Bounds of `Pg[i]`: `[pmin, pmax] / Sbase` for the rows of GenD. -/
def PgBnd (i : Nat) : Option ℚ × Option ℚ :=
  match lookupGen i with
  | some g => (some (g.pmin / Sbase), some (g.pmax / Sbase))
  | none => (none, none)

/-- Bounds of `Qg[i]`: `[Qmin, Qmax] / Sbase` for the rows of GenD. -/
def QgBnd (i : Nat) : Option ℚ × Option ℚ :=
  match lookupGen i with
  | some g => (some (g.Qmin / Sbase), some (g.Qmax / Sbase))
  | none => (none, none)

/-- Bounds of `Va[i]`: `[-pi/2, pi/2]`, set on the whole indexed variable. -/
noncomputable def VaBnd (i : Nat) : Option ℝ × Option ℝ :=
  if i ∈ buses then (some (-(Real.pi / 2)), some (Real.pi / 2)) else (none, none)

/-- Bounds of `V[i]`: never set. -/
def VBnd (_ : Nat) : Option ℝ × Option ℝ := (none, none)

/-- Bounds of `Pij[i,j]`: `[-limit, limit] / Sbase` for the pairs of LN. -/
def PijBnd (p : Nat × Nat) : Option ℚ × Option ℚ :=
  match lookupLN p with
  | some l => (some (-l.limit / Sbase), some (l.limit / Sbase))
  | none => (none, none)

/-- Bounds of `Qij[i,j]`: the source never sets them. -/
def QijBnd (_ : Nat × Nat) : Option ℚ × Option ℚ := (none, none)

/-- A real value respects an optional rational (lower, upper) bound pair. -/
def inBndQ (b : Option ℚ × Option ℚ) (v : ℝ) : Prop :=
  (match b.1 with | some q => (q : ℝ) ≤ v | none => True) ∧
  (match b.2 with | some q => v ≤ (q : ℝ) | none => True)

/-- A real value respects an optional real (lower, upper) bound pair. -/
def inBndR (b : Option ℝ × Option ℝ) (v : ℝ) : Prop :=
  (match b.1 with | some q => q ≤ v | none => True) ∧
  (match b.2 with | some q => v ≤ q | none => True)

/-- All variable bounds of the built model hold at an assignment. -/
def boundsOK (a : Assign) : Prop :=
  (∀ i, inBndQ (PgBnd i) (a.Pg i)) ∧
  (∀ i, inBndQ (QgBnd i) (a.Qg i)) ∧
  (∀ i, inBndR (VaBnd i) (a.Va i)) ∧
  (∀ i, inBndR (VBnd i) (a.V i)) ∧
  (∀ p : Nat × Nat, inBndQ (PijBnd p) (a.Pij p.1 p.2)) ∧
  (∀ p : Nat × Nat, inBndQ (QijBnd p) (a.Qij p.1 p.2))

/-- All generated constraints of the built model hold at an assignment:
`eq1` and `eq2` over the index set `model.i × model.j`, `eq3` and `eq4`
over `model.i`, skipped entries imposing nothing. -/
def constraintsOK (a : Assign) : Prop :=
  (∀ i ∈ buses, ∀ j ∈ buses, satisfiesOpt (eq1_rule a i j)) ∧
  (∀ i ∈ buses, ∀ j ∈ buses, satisfiesOpt (eq2_rule a i j)) ∧
  (∀ i ∈ buses, satisfiesOpt (eq3_rule a i)) ∧
  (∀ i ∈ buses, satisfiesOpt (eq4_rule a i))

/-- A feasible point of the built optimization problem: every generated
constraint and every variable bound holds. -/
def Feasible (a : Assign) : Prop :=
  constraintsOK a ∧ boundsOK a

/-! ## Initial values

`model.V[1] = 1.0` and `model.Va[1] = 0` assign initial values to the
slack-bus variables; Pyomo records them as the current value of the
variable, not as constraints. -/

/-- Initial value assigned to `V[i]` by the source. -/
def Vinit (i : Nat) : Option ℚ := if i = 1 then some 1 else none

/-- Initial value assigned to `Va[i]` by the source. -/
def VaInit (i : Nat) : Option ℚ := if i = 1 then some 0 else none

/-! ## The model builder, generalised over the line table

To study malformed line tables, the construction phases that touch the line
table are made explicit.  Running the script with a line table `ln`:
first the derived dictionaries `bij`, `z`, `th` are computed (a row with
`x = 0` raises ZeroDivisionError in `bij`), then variable bounds are set
(`model.Pij[i, j]` raises a KeyError when `(i, j)` is not in the index set
`model.i × model.j`), and only then are the constraints built. -/

/-- The derived-dictionary phase: `bij = {.. 1 / LN[(i,j)].x ..}` raises on
a row with zero reactance. -/
def deriveStep (ln : List ((Nat × Nat) × LineData)) : Except String Unit :=
  match ln.find? (fun e => e.2.x = 0) with
  | some e => Except.error ("ZeroDivisionError in bij at " ++ toString e.1)
  | none => Except.ok ()

/-- The flow-bound phase: `for (i, j) in LN.keys(): model.Pij[i, j]...`;
indexing a Pyomo variable outside its index set raises a KeyError. -/
def pijBoundStep (ln : List ((Nat × Nat) × LineData)) : Except String Unit :=
  match ln.find? (fun e => ¬ (e.1.1 ∈ buses ∧ e.1.2 ∈ buses)) with
  | some e => Except.error ("Index " ++ toString e.1 ++
      " is not valid for indexed component Pij")
  | none => Except.ok ()

/-- The constraint phase on a line table `ln`: the flow constraints for the
pairs of `ln` inside the bus set, in index order (the balance constraints
and the objective do not read `ln` and are unchanged). -/
def flowConstraintsOn (ln : List ((Nat × Nat) × LineData)) :
    List (Assign → Prop) :=
  (ln.filter (fun e => e.1.1 ∈ buses ∧ e.1.2 ∈ buses)).map
    (fun e a => a.Pij e.1.1 e.1.2 =
      ((a.V e.1.1) ^ 2 * Real.cos (thOf e.2) -
        a.V e.1.1 * a.V e.1.2 *
          Real.cos (a.Va e.1.1 - a.Va e.1.2 + thOf e.2)) / zOf e.2)

/-- Running the builder on a line table `ln`: derived dictionaries, then
bounds, then constraints; an error in an earlier phase aborts the run
before any constraint is built. -/
def buildModelOn (ln : List ((Nat × Nat) × LineData)) :
    Except String (List (Assign → Prop)) := do
  _ ← deriveStep ln
  _ ← pijBoundStep ln
  pure (flowConstraintsOn ln)

/-! ## Solver status and reporting

After the solve, the script checks the termination condition, prints a
status line, and then runs four reporting loops over `model.i`, each loop
skipping a bus whose variable has no value. -/

/-- Solver termination conditions, with the string Python prints for each. -/
inductive TermCond where
  | optimal
  | infeasible
  | maxIterations
  | otherCond (s : String)
  deriving DecidableEq, Repr

/-- The text of a termination condition as printed. -/
def tcText : TermCond → String
  | TermCond.optimal => "optimal"
  | TermCond.infeasible => "infeasible"
  | TermCond.maxIterations => "maxIterations"
  | TermCond.otherCond s => s

/-- The values the solver wrote back into the variables, `none` when a
variable was left without a value. -/
structure SolveVals where
  PgV : Nat → Option ℚ
  QgV : Nat → Option ℚ
  VaV : Nat → Option ℚ

/-- The status line: the success message on `optimal`, otherwise the
failure message carrying the literal termination condition. -/
def statusLine (tc : TermCond) : String :=
  if tc = TermCond.optimal then "Model solved successfully!"
  else "Model could not be solved. Termination condition: " ++ tcText tc

/-- First reporting loop: `Generator i: Pg = value` with the value scaled
by Sbase (no unit suffix in this loop). -/
def pgLines (v : SolveVals) : List String :=
  buses.filterMap (fun i => (v.PgV i).map (fun q =>
    "Generator " ++ toString i ++ ": Pg = " ++ toString (q * Sbase)))

/-- Second reporting loop: `Bus i: Va = value`, unscaled. -/
def vaLines (v : SolveVals) : List String :=
  buses.filterMap (fun i => (v.VaV i).map (fun q =>
    "Bus " ++ toString i ++ ": Va = " ++ toString q))

/-- Third reporting loop: `Generator i: Pg = value MW`, scaled by Sbase. -/
def pgMWLines (v : SolveVals) : List String :=
  buses.filterMap (fun i => (v.PgV i).map (fun q =>
    "Generator " ++ toString i ++ ": Pg = " ++ toString (q * Sbase) ++ " MW"))

/-- Fourth reporting loop: `Generator i: Qg = value MVar`, scaled by Sbase. -/
def qgLines (v : SolveVals) : List String :=
  buses.filterMap (fun i => (v.QgV i).map (fun q =>
    "Generator " ++ toString i ++ ": Qg = " ++ toString (q * Sbase) ++ " MVar"))

/-- The lines printed by the reporting loops (everything after the status
line), in program order. -/
def reportLines (v : SolveVals) : List String :=
  pgLines v ++ vaLines v ++
    ("Active Power Output (Pg) in MW:" :: pgMWLines v) ++
    ("Reactive Power Output (Qg) in MVar:" :: qgLines v)

/-- Everything printed after the solve, one list entry per printed line, in
program order: status line, then the reporting loops. -/
def programOutput (tc : TermCond) (v : SolveVals) : List String :=
  statusLine tc :: reportLines v

/-! ## Definitions following the words of the spec

For the refinement claims, the spec-side quantities are written out
separately, following the sentences of the spec, to be compared with the
definitions that embed the source. -/

/-- The six ordered pairs declared in the line table, the pairs for which
the spec asserts flow constraints exist. -/
def LNpairs : List (Nat × Nat) := [(1, 2), (1, 3), (1, 5), (2, 3), (3, 4), (4, 5)]

/-- Spec side: impedance magnitude `z = sqrt(x^2 + r^2)` of the line (i, j). -/
noncomputable def specZ (i j : Nat) : ℝ :=
  match lookupLN (i, j) with
  | some l => Real.sqrt ((l.x : ℝ) ^ 2 + (l.r : ℝ) ^ 2)
  | none => 0

/-- Spec side: impedance angle `theta = atan(x/r)`, `pi/2` if `r = 0`, of
the line (i, j). -/
noncomputable def specTheta (i j : Nat) : ℝ :=
  match lookupLN (i, j) with
  | some l => if l.r = 0 then Real.pi / 2 else Real.arctan ((l.x : ℝ) / (l.r : ℝ))
  | none => 0

/-- Spec side: the active power flow expression of the claim,
`(V[i]^2 cos theta - V[i] V[j] cos(Va[i] - Va[j] + theta)) / z`. -/
noncomputable def specActiveFlow (a : Assign) (i j : Nat) : ℝ :=
  ((a.V i) ^ 2 * Real.cos (specTheta i j) -
    a.V i * a.V j * Real.cos (a.Va i - a.Va j + specTheta i j)) / specZ i j

/-- Spec side: the reactive power flow expression of the claim,
`(V[i]^2 sin theta - V[i] V[j] sin(Va[i] - Va[j] + theta)) / z`. -/
noncomputable def specReactiveFlow (a : Assign) (i j : Nat) : ℝ :=
  ((a.V i) ^ 2 * Real.sin (specTheta i j) -
    a.V i * a.V j * Real.sin (a.Va i - a.Va j + specTheta i j)) / specZ i j

/-- Spec side: the real demand Pd of bus i (0 off the demand table). -/
def PdOf (i : Nat) : ℚ :=
  match lookupBD i with
  | some d => d.Pd
  | none => 0

/-- Spec side: the reactive demand Qd of bus i (0 off the demand table). -/
def QdOf (i : Nat) : ℚ :=
  match lookupBD i with
  | some d => d.Qd
  | none => 0

/-- Spec side: the cost coefficient b of generator bus i (0 elsewhere). -/
def bCoef (i : Nat) : ℚ :=
  match lookupGen i with
  | some g => g.b
  | none => 0

/-- The generator buses named by the spec. -/
def genBuses : List Nat := [1, 3, 4, 5]

/-- Spec side: the objective of the claim, the sum over the generator
buses of `Pg[i] b[i] Sbase + Pg[i]^2 b[i] Sbase^2 + b[i]`. -/
def specCost (a : Assign) : ℝ :=
  (genBuses.map (fun i =>
    a.Pg i * (bCoef i : ℝ) * (Sbase : ℝ) +
    (a.Pg i) ^ 2 * (bCoef i : ℝ) * (Sbase : ℝ) ^ 2 +
    (bCoef i : ℝ))).sum

/-- Spec side: the output shape asserted by the claim, the status line
followed by the per-bus `Generator ...: Pg = ... MW` lines and the
per-bus `Bus ...: Va = ...` lines. -/
def claimedOutput (tc : TermCond) (v : SolveVals) : List String :=
  statusLine tc :: (pgMWLines v ++ vaLines v)

/-- The all-zero assignment, used to instantiate universal theorems. -/
def aZero : Assign :=
  ⟨0, fun _ _ => 0, fun _ _ => 0, fun _ => 0, fun _ => 0, fun _ => 0, fun _ => 0⟩

/-- The all-zero assignment with `Pg[2]` moved, showing `Pg[2]` does not
enter the objective. -/
def aPg2 : Assign :=
  { aZero with Pg := fun i => if i = 2 then 5 else 0 }

/-- A SolveVals with no value anywhere. -/
def noVals : SolveVals := ⟨fun _ => none, fun _ => none, fun _ => none⟩

/-- A SolveVals with the value 1 at every bus. -/
def allVals : SolveVals :=
  ⟨fun i => if i ∈ buses then some 1 else none,
   fun i => if i ∈ buses then some 1 else none,
   fun i => if i ∈ buses then some 1 else none⟩

/-- A line row with in-range electrical data, used to build a malformed
table variant. -/
def badLine : LineData := ⟨1/100, 1/10, 0, 400⟩

/-- The line table with one extra row referencing bus 6, outside the
declared bus set. -/
def badLN : List ((Nat × Nat) × LineData) := LN ++ [((1, 6), badLine)]

/-- A feasible point of the built model whose slack-bus voltage magnitude
is 0 rather than 1: buses 1 and 2 carry zero voltage, bus 3 a small
voltage at angle pi/2, buses 4 and 5 a common negative voltage at angle
arctan 10 - pi/2, so that the only nonzero branch flow runs on line
(3, 4) and every balance and bound holds exactly. -/
noncomputable def aStar : Assign where
  OF := 0
  Pij := fun i j => if i = 3 ∧ j = 4 then (250/29997 : ℝ) - 21/10 else 0
  Qij := fun i j => if i = 3 ∧ j = 4 then (2500/29997 : ℝ) else 0
  Pg := fun i =>
    if i = 1 then 1 else if i = 2 then 3 else if i = 3 then 3
    else if i = 4 then 4 + ((250/29997 : ℝ) - 21/10)
    else if i = 5 then 5 else 0
  Qg := fun i =>
    if i = 1 then 0 else if i = 2 then (9861/10000 : ℝ)
    else if i = 3 then (9861/10000 : ℝ)
    else if i = 4 then (13147/10000 : ℝ) + 2500/29997 else 0
  Va := fun i =>
    if i = 3 then Real.pi / 2
    else if i = 4 ∨ i = 5 then Real.arctan 10 - Real.pi / 2 else 0
  V := fun i =>
    if i = 3 then (1/20 : ℝ)
    else if i = 4 ∨ i = 5 then -(6237/50000) * Real.sqrt 101 else 0

/-! ## Helper lemmas -/

/-- A pair is in LNpairs exactly when the line table has an entry for it. -/
lemma mem_LNpairs_iff (p : Nat × Nat) : p ∈ LNpairs ↔ (lookupLN p).isSome := by
  rw [lookupLN, lookup, Option.isSome_map', List.find?_isSome]
  simp [LN, LNpairs, eq_comm]

/-- The connectivity indicator is 1 exactly on the pairs of the line
table (all of which join declared buses). -/
lemma cx_eq_one_iff (p : Nat × Nat) : cx p = 1 ↔ p ∈ LNpairs := by
  rw [cx]
  constructor
  · intro h
    by_contra hc
    rw [if_neg] at h
    · exact absurd h (by norm_num)
    · intro hh
      exact hc ((mem_LNpairs_iff p).mpr hh.2.2)
  · intro h
    rw [if_pos]
    refine ⟨?_, ?_, (mem_LNpairs_iff p).mp h⟩ <;> fin_cases h <;> simp [buses]

/-- A bus off the generator list has no entry in the generator table. -/
lemma lookupGen_eq_none (i : Nat) (h : i ∉ genBuses) : lookupGen i = none := by
  rw [lookupGen, lookup, List.find?_eq_none.mpr ?_]
  · rfl
  · intro x hx
    fin_cases hx <;> simp_all [genBuses, eq_comm]

/-- A pair off the line table has no entry there. -/
lemma lookupLN_eq_none (p : Nat × Nat) (h : p ∉ LNpairs) : lookupLN p = none := by
  have := (mem_LNpairs_iff p).not.mp h
  cases hl : lookupLN p with
  | none => rfl
  | some l => rw [hl] at this; simp at this

/-- Table lookups evaluated at each declared index. -/
lemma lookupLN_12 : lookupLN (1, 2) = some ⟨281/100000, 281/10000, 712/100000, 400⟩ := rfl

lemma lookupLN_13 : lookupLN (1, 3) = some ⟨304/100000, 304/10000, 658/100000, 400⟩ := rfl

lemma lookupLN_15 : lookupLN (1, 5) = some ⟨64/100000, 64/10000, 3126/100000, 400⟩ := rfl

lemma lookupLN_23 : lookupLN (2, 3) = some ⟨108/100000, 108/10000, 1852/100000, 400⟩ := rfl

lemma lookupLN_34 : lookupLN (3, 4) = some ⟨297/100000, 297/10000, 674/100000, 400⟩ := rfl

lemma lookupLN_45 : lookupLN (4, 5) = some ⟨297/100000, 297/10000, 674/100000, 240⟩ := rfl

lemma lookupGen_1 : lookupGen 1 = some ⟨210, 0, 315/2, -(315/2), 3⟩ := rfl

lemma lookupGen_3 : lookupGen 3 = some ⟨520, 0, 390, -390, 5⟩ := rfl

lemma lookupGen_4 : lookupGen 4 = some ⟨200, 0, 150, -150, 2⟩ := rfl

lemma lookupGen_5 : lookupGen 5 = some ⟨600, 0, 450, -450, 1⟩ := rfl

lemma lookupBD_1 : lookupBD 1 = some ⟨100, 0⟩ := rfl

lemma lookupBD_2 : lookupBD 2 = some ⟨300, 9861/100⟩ := rfl

lemma lookupBD_3 : lookupBD 3 = some ⟨300, 9861/100⟩ := rfl

lemma lookupBD_4 : lookupBD 4 = some ⟨400, 13147/100⟩ := rfl

lemma lookupBD_5 : lookupBD 5 = some ⟨500, 0⟩ := rfl

/-- Evaluate the dictionary z at a pair present in the line table. -/
lemma z_eval (p : Nat × Nat) (l : LineData) (h : lookupLN p = some l) :
    z p = zOf l := by
  unfold z
  rw [h]

/-- Evaluate the dictionary th at a pair present in the line table. -/
lemma th_eval (p : Nat × Nat) (l : LineData) (h : lookupLN p = some l) :
    th p = thOf l := by
  unfold th
  rw [h]

/-- The source dictionary th agrees with the spec-side theta. -/
lemma th_eq_specTheta (i j : Nat) : th (i, j) = specTheta i j := by
  cases h : lookupLN (i, j) <;> simp [th, specTheta, thOf, h]

/-- The source dictionary z agrees with the spec-side z. -/
lemma z_eq_specZ (i j : Nat) : z (i, j) = specZ i j := by
  cases h : lookupLN (i, j) <;> simp [z, specZ, zOf, h]

/-- Generic: a filterMap keeps exactly the entries whose image is some. -/
lemma length_filterMap_isSome {α β : Type} (f : α → Option β) (l : List α) :
    (l.filterMap f).length = (l.filter (fun x => (f x).isSome)).length := by
  induction l with
  | nil => rfl
  | cons x xs ih =>
    cases h : f x <;> simp [List.filterMap_cons, List.filter_cons, h, ih]

/-! ## Feasibility of the point aStar -/

lemma sqrt101_pos : (0:ℝ) < Real.sqrt 101 := Real.sqrt_pos.mpr (by norm_num)

lemma sqrt101_mul_self : Real.sqrt 101 * Real.sqrt 101 = 101 :=
  Real.mul_self_sqrt (by norm_num)

lemma cos_arctan_ten : Real.cos (Real.arctan 10) = Real.sqrt 101 / 101 := by
  rw [Real.cos_arctan, show (1:ℝ) + 10 ^ 2 = 101 by norm_num,
    div_eq_div_iff sqrt101_pos.ne' (by norm_num : (101:ℝ) ≠ 0)]
  linear_combination -sqrt101_mul_self

lemma sin_arctan_ten : Real.sin (Real.arctan 10) = 10 * Real.sqrt 101 / 101 := by
  rw [Real.sin_arctan, show (1:ℝ) + 10 ^ 2 = 101 by norm_num,
    div_eq_div_iff sqrt101_pos.ne' (by norm_num : (101:ℝ) ≠ 0)]
  linear_combination -10 * sqrt101_mul_self

lemma th34_eq : th (3, 4) = Real.arctan 10 := by
  rw [th_eval _ _ lookupLN_34]
  unfold thOf
  rw [if_neg (by norm_num)]
  congr 1
  push_cast
  norm_num

lemma z34_eq : z (3, 4) = (297/100000 : ℝ) * Real.sqrt 101 := by
  rw [z_eval _ _ lookupLN_34]
  unfold zOf
  rw [show ((((297:ℚ)/10000 : ℚ) : ℝ))^2 + ((((297:ℚ)/100000 : ℚ) : ℝ))^2 =
      ((297/100000 : ℝ))^2 * 101 by push_cast; ring_nf]
  rw [Real.sqrt_mul (by positivity) 101, Real.sqrt_sq (by norm_num)]

/-- The generated flow constraint, made explicit when the pair is live. -/
lemma satisfiesOpt_eq1 (a : Assign) (i j : Nat) (h : cx (i, j) = 1) :
    satisfiesOpt (eq1_rule a i j) ↔
      (a.Pij i j =
        ((a.V i) ^ 2 * Real.cos (th (i, j)) -
          a.V i * a.V j * Real.cos (a.Va i - a.Va j + th (i, j))) / z (i, j)) := by
  unfold eq1_rule
  rw [if_pos h]
  exact Iff.rfl

/-- The generated reactive flow constraint, made explicit. -/
lemma satisfiesOpt_eq2 (a : Assign) (i j : Nat) (h : cx (i, j) = 1) :
    satisfiesOpt (eq2_rule a i j) ↔
      (a.Qij i j =
        ((a.V i) ^ 2 * Real.sin (th (i, j)) -
          a.V i * a.V j * Real.sin (a.Va i - a.Va j + th (i, j))) / z (i, j)) := by
  unfold eq2_rule
  rw [if_pos h]
  exact Iff.rfl

/-- The generated real balance constraint, made explicit. -/
lemma satisfiesOpt_eq3 (a : Assign) (i : Nat) (d : DemandData)
    (h : lookup BD i = some d) :
    satisfiesOpt (eq3_rule a i) ↔
      (a.Pg i - (d.Pd : ℝ) / (Sbase : ℝ) =
        ((inflowFrom i).map (fun j => a.Pij j i)).sum) := by
  unfold eq3_rule eq3_ruleOn
  rw [h]
  exact Iff.rfl

/-- The generated reactive balance constraint, made explicit. -/
lemma satisfiesOpt_eq4 (a : Assign) (i : Nat) (d : DemandData)
    (h : lookup BD i = some d) :
    satisfiesOpt (eq4_rule a i) ↔
      (a.Qg i - (d.Qd : ℝ) / (Sbase : ℝ) =
        ((inflowFrom i).map (fun j => a.Qij j i)).sum) := by
  unfold eq4_rule eq4_ruleOn
  rw [h]
  exact Iff.rfl

lemma aStar_flow34P : satisfiesOpt (eq1_rule aStar 3 4) := by
  rw [satisfiesOpt_eq1 aStar 3 4 rfl, th34_eq, z34_eq]
  show (250/29997 : ℝ) - 21/10 =
    ((1/20 : ℝ) ^ 2 * Real.cos (Real.arctan 10) -
      (1/20 : ℝ) * (-(6237/50000) * Real.sqrt 101) *
        Real.cos (Real.pi / 2 - (Real.arctan 10 - Real.pi / 2) + Real.arctan 10)) /
      ((297/100000 : ℝ) * Real.sqrt 101)
  rw [show Real.pi / 2 - (Real.arctan 10 - Real.pi / 2) + Real.arctan 10 = Real.pi
      from by ring]
  rw [Real.cos_pi, cos_arctan_ten,
    eq_div_iff (by positivity : ((297/100000 : ℝ) * Real.sqrt 101) ≠ 0)]
  ring_nf

lemma aStar_flow34Q : satisfiesOpt (eq2_rule aStar 3 4) := by
  rw [satisfiesOpt_eq2 aStar 3 4 rfl, th34_eq, z34_eq]
  show (2500/29997 : ℝ) =
    ((1/20 : ℝ) ^ 2 * Real.sin (Real.arctan 10) -
      (1/20 : ℝ) * (-(6237/50000) * Real.sqrt 101) *
        Real.sin (Real.pi / 2 - (Real.arctan 10 - Real.pi / 2) + Real.arctan 10)) /
      ((297/100000 : ℝ) * Real.sqrt 101)
  rw [show Real.pi / 2 - (Real.arctan 10 - Real.pi / 2) + Real.arctan 10 = Real.pi
      from by ring]
  rw [Real.sin_pi, sin_arctan_ten,
    eq_div_iff (by positivity : ((297/100000 : ℝ) * Real.sqrt 101) ≠ 0)]
  ring_nf

lemma aStar_flow12P : satisfiesOpt (eq1_rule aStar 1 2) := by
  rw [satisfiesOpt_eq1 aStar 1 2 rfl]
  norm_num [aStar]

lemma aStar_flow13P : satisfiesOpt (eq1_rule aStar 1 3) := by
  rw [satisfiesOpt_eq1 aStar 1 3 rfl]
  norm_num [aStar]

lemma aStar_flow15P : satisfiesOpt (eq1_rule aStar 1 5) := by
  rw [satisfiesOpt_eq1 aStar 1 5 rfl]
  norm_num [aStar]

lemma aStar_flow23P : satisfiesOpt (eq1_rule aStar 2 3) := by
  rw [satisfiesOpt_eq1 aStar 2 3 rfl]
  norm_num [aStar]

lemma aStar_flow45P : satisfiesOpt (eq1_rule aStar 4 5) := by
  rw [satisfiesOpt_eq1 aStar 4 5 rfl]
  show (0:ℝ) =
    ((-(6237/50000 : ℝ) * Real.sqrt 101) ^ 2 * Real.cos (th (4, 5)) -
      (-(6237/50000 : ℝ) * Real.sqrt 101) * (-(6237/50000 : ℝ) * Real.sqrt 101) *
        Real.cos ((Real.arctan 10 - Real.pi / 2) - (Real.arctan 10 - Real.pi / 2) +
          th (4, 5))) / z (4, 5)
  rw [sub_self, zero_add]
  ring_nf

lemma aStar_eq1 : ∀ i ∈ buses, ∀ j ∈ buses, satisfiesOpt (eq1_rule aStar i j) := by
  intro i hi j hj
  fin_cases hi <;> fin_cases hj <;>
  first
  | exact trivial
  | exact aStar_flow12P
  | exact aStar_flow13P
  | exact aStar_flow15P
  | exact aStar_flow23P
  | exact aStar_flow34P
  | exact aStar_flow45P

lemma aStar_flow12Q : satisfiesOpt (eq2_rule aStar 1 2) := by
  rw [satisfiesOpt_eq2 aStar 1 2 rfl]
  norm_num [aStar]

lemma aStar_flow13Q : satisfiesOpt (eq2_rule aStar 1 3) := by
  rw [satisfiesOpt_eq2 aStar 1 3 rfl]
  norm_num [aStar]

lemma aStar_flow15Q : satisfiesOpt (eq2_rule aStar 1 5) := by
  rw [satisfiesOpt_eq2 aStar 1 5 rfl]
  norm_num [aStar]

lemma aStar_flow23Q : satisfiesOpt (eq2_rule aStar 2 3) := by
  rw [satisfiesOpt_eq2 aStar 2 3 rfl]
  norm_num [aStar]

lemma aStar_flow45Q : satisfiesOpt (eq2_rule aStar 4 5) := by
  rw [satisfiesOpt_eq2 aStar 4 5 rfl]
  show (0:ℝ) =
    ((-(6237/50000 : ℝ) * Real.sqrt 101) ^ 2 * Real.sin (th (4, 5)) -
      (-(6237/50000 : ℝ) * Real.sqrt 101) * (-(6237/50000 : ℝ) * Real.sqrt 101) *
        Real.sin ((Real.arctan 10 - Real.pi / 2) - (Real.arctan 10 - Real.pi / 2) +
          th (4, 5))) / z (4, 5)
  rw [sub_self, zero_add]
  ring_nf

lemma aStar_eq2 : ∀ i ∈ buses, ∀ j ∈ buses, satisfiesOpt (eq2_rule aStar i j) := by
  intro i hi j hj
  fin_cases hi <;> fin_cases hj <;>
  first
  | exact trivial
  | exact aStar_flow12Q
  | exact aStar_flow13Q
  | exact aStar_flow15Q
  | exact aStar_flow23Q
  | exact aStar_flow34Q
  | exact aStar_flow45Q

lemma aStar_eq3 : ∀ i ∈ buses, satisfiesOpt (eq3_rule aStar i) := by
  intro i hi
  fin_cases hi
  · rw [satisfiesOpt_eq3 aStar 1 ⟨100, 0⟩ rfl, show inflowFrom 1 = [] from rfl]
    norm_num [aStar, Sbase]
  · rw [satisfiesOpt_eq3 aStar 2 ⟨300, 9861/100⟩ rfl, show inflowFrom 2 = [1] from rfl]
    norm_num [aStar, Sbase]
  · rw [satisfiesOpt_eq3 aStar 3 ⟨300, 9861/100⟩ rfl, show inflowFrom 3 = [1, 2] from rfl]
    norm_num [aStar, Sbase]
  · rw [satisfiesOpt_eq3 aStar 4 ⟨400, 13147/100⟩ rfl, show inflowFrom 4 = [3] from rfl]
    norm_num [aStar, Sbase]
  · rw [satisfiesOpt_eq3 aStar 5 ⟨500, 0⟩ rfl, show inflowFrom 5 = [1, 4] from rfl]
    norm_num [aStar, Sbase]

lemma aStar_eq4 : ∀ i ∈ buses, satisfiesOpt (eq4_rule aStar i) := by
  intro i hi
  fin_cases hi
  · rw [satisfiesOpt_eq4 aStar 1 ⟨100, 0⟩ rfl, show inflowFrom 1 = [] from rfl]
    norm_num [aStar, Sbase]
  · rw [satisfiesOpt_eq4 aStar 2 ⟨300, 9861/100⟩ rfl, show inflowFrom 2 = [1] from rfl]
    norm_num [aStar, Sbase]
  · rw [satisfiesOpt_eq4 aStar 3 ⟨300, 9861/100⟩ rfl, show inflowFrom 3 = [1, 2] from rfl]
    norm_num [aStar, Sbase]
  · rw [satisfiesOpt_eq4 aStar 4 ⟨400, 13147/100⟩ rfl, show inflowFrom 4 = [3] from rfl]
    norm_num [aStar, Sbase]
  · rw [satisfiesOpt_eq4 aStar 5 ⟨500, 0⟩ rfl, show inflowFrom 5 = [1, 4] from rfl]
    norm_num [aStar, Sbase]

lemma aStar_PgBounds : ∀ i, inBndQ (PgBnd i) (aStar.Pg i) := by
  intro i
  by_cases h1 : i = 1
  · subst h1
    norm_num [PgBnd, lookupGen_1, inBndQ, aStar, Sbase]
  by_cases h3 : i = 3
  · subst h3
    norm_num [PgBnd, lookupGen_3, inBndQ, aStar, Sbase]
  by_cases h4 : i = 4
  · subst h4
    norm_num [PgBnd, lookupGen_4, inBndQ, aStar, Sbase]
  by_cases h5 : i = 5
  · subst h5
    norm_num [PgBnd, lookupGen_5, inBndQ, aStar, Sbase]
  · have hm : i ∉ genBuses := by simp [genBuses, h1, h3, h4, h5]
    simp [PgBnd, lookupGen_eq_none i hm, inBndQ]

lemma aStar_QgBounds : ∀ i, inBndQ (QgBnd i) (aStar.Qg i) := by
  intro i
  by_cases h1 : i = 1
  · subst h1
    norm_num [QgBnd, lookupGen_1, inBndQ, aStar, Sbase]
  by_cases h3 : i = 3
  · subst h3
    norm_num [QgBnd, lookupGen_3, inBndQ, aStar, Sbase]
  by_cases h4 : i = 4
  · subst h4
    norm_num [QgBnd, lookupGen_4, inBndQ, aStar, Sbase]
  by_cases h5 : i = 5
  · subst h5
    norm_num [QgBnd, lookupGen_5, inBndQ, aStar, Sbase]
  · have hm : i ∉ genBuses := by simp [genBuses, h1, h3, h4, h5]
    simp [QgBnd, lookupGen_eq_none i hm, inBndQ]

lemma aStar_VaBounds : ∀ i, inBndR (VaBnd i) (aStar.Va i) := by
  intro i
  by_cases hb : i ∈ buses
  · rw [VaBnd, if_pos hb]
    have hpi : (0:ℝ) < Real.pi := Real.pi_pos
    have hat0 : (0:ℝ) < Real.arctan 10 := by
      rw [show (0:ℝ) = Real.arctan 0 from (Real.arctan_zero).symm]
      exact Real.arctan_strictMono (by norm_num)
    have hat1 : Real.arctan 10 < Real.pi / 2 := Real.arctan_lt_pi_div_two 10
    fin_cases hb <;>
      constructor <;>
      simp [inBndR, aStar] <;>
      linarith
  · rw [VaBnd, if_neg hb]
    exact ⟨trivial, trivial⟩

lemma aStar_PijBounds : ∀ p : Nat × Nat, inBndQ (PijBnd p) (aStar.Pij p.1 p.2) := by
  intro p
  by_cases h : p ∈ LNpairs
  · fin_cases h <;>
      norm_num [PijBnd, lookupLN_12, lookupLN_13, lookupLN_15, lookupLN_23,
        lookupLN_34, lookupLN_45, inBndQ, aStar, Sbase]
  · simp [PijBnd, lookupLN_eq_none p h, inBndQ]

lemma aStar_feasible : Feasible aStar :=
  ⟨⟨aStar_eq1, aStar_eq2, aStar_eq3, aStar_eq4⟩,
   aStar_PgBounds, aStar_QgBounds, aStar_VaBounds,
   fun _ => ⟨trivial, trivial⟩, aStar_PijBounds, fun _ => ⟨trivial, trivial⟩⟩

/-! ## Claims -/

/-- C1: exactly the six ordered pairs of the line table receive the active
and reactive flow equality constraints of the claim, with theta and z
computed from the line table; every other ordered pair gets none. -/
theorem C1_flow_constraints :
    ∀ (a : Assign) (i j : Nat),
      ((i, j) ∈ LNpairs →
        eq1_rule a i j = some (a.Pij i j = specActiveFlow a i j) ∧
        eq2_rule a i j = some (a.Qij i j = specReactiveFlow a i j)) ∧
      ((i, j) ∉ LNpairs → eq1_rule a i j = none ∧ eq2_rule a i j = none) := by
  intro a i j
  constructor
  · intro h
    have hcx : cx (i, j) = 1 := (cx_eq_one_iff (i, j)).mpr h
    constructor
    · simp [eq1_rule, hcx, specActiveFlow, th_eq_specTheta, z_eq_specZ]
    · simp [eq2_rule, hcx, specReactiveFlow, th_eq_specTheta, z_eq_specZ]
  · intro h
    have hcx : ¬ (cx (i, j) = 1) := fun hc => h ((cx_eq_one_iff (i, j)).mp hc)
    exact ⟨by simp [eq1_rule, hcx], by simp [eq2_rule, hcx]⟩

/-- Witness for C1: the declared pair (1, 2) carries its flow constraint
and the undeclared reverse pair (2, 1) carries none. -/
theorem C1_flow_constraints_witness :
    eq1_rule aZero 1 2 = some (aZero.Pij 1 2 = specActiveFlow aZero 1 2) ∧
    eq1_rule aZero 2 1 = none ∧ eq2_rule aZero 2 1 = none :=
  ⟨((C1_flow_constraints aZero 1 2).1 (by decide)).1,
   ((C1_flow_constraints aZero 2 1).2 (by decide)).1,
   ((C1_flow_constraints aZero 2 1).2 (by decide)).2⟩

/-- C2: every bus with a demand entry (all five here) gets the real and
reactive balance constraints summing only over the declared inflow
directions; a bus with no demand entry gets no balance constraint. -/
theorem C2_balance_constraints :
    (∀ (a : Assign), ∀ i ∈ buses,
      eq3_rule a i = some (a.Pg i - ((PdOf i : ℚ) : ℝ) / ((Sbase : ℚ) : ℝ) =
        ((inflowFrom i).map (fun j => a.Pij j i)).sum) ∧
      eq4_rule a i = some (a.Qg i - ((QdOf i : ℚ) : ℝ) / ((Sbase : ℚ) : ℝ) =
        ((inflowFrom i).map (fun j => a.Qij j i)).sum)) ∧
    (∀ (bd : List (Nat × DemandData)) (a : Assign) (i : Nat), lookup bd i = none →
      eq3_ruleOn bd a i = none ∧ eq4_ruleOn bd a i = none) ∧
    (inflowFrom 1 = [] ∧ inflowFrom 2 = [1] ∧ inflowFrom 3 = [1, 2] ∧
     inflowFrom 4 = [3] ∧ inflowFrom 5 = [1, 4]) := by
  refine ⟨?_, ?_, by decide⟩
  · intro a i hi
    fin_cases hi <;> exact ⟨rfl, rfl⟩
  · intro bd a i h
    constructor <;> simp [eq3_ruleOn, eq4_ruleOn, h]

/-- Witness for C2: the balance constraint at bus 2 and the skip on an
empty demand table. -/
theorem C2_balance_constraints_witness :
    eq3_rule aZero 2 = some (aZero.Pg 2 - ((PdOf 2 : ℚ) : ℝ) / ((Sbase : ℚ) : ℝ) =
      ((inflowFrom 2).map (fun j => aZero.Pij j 2)).sum) ∧
    eq3_ruleOn [] aZero 1 = none :=
  ⟨(C2_balance_constraints.1 aZero 2 (by decide)).1,
   (C2_balance_constraints.2.1 [] aZero 1 rfl).1⟩

/-- C6 fails as stated: `model.V[1] = 1.0` and `model.Va[1] = 0` only set
initial values, not constraints, and the built problem admits a feasible
point whose slack-bus voltage magnitude is 0, not 1. -/
theorem C6_counterexample :
    Feasible aStar ∧ aStar.V 1 = 0 ∧ aStar.V 1 ≠ 1 :=
  ⟨aStar_feasible, rfl, by rw [show aStar.V 1 = 0 from rfl]; norm_num⟩

/-- C6 amended: the slack-bus voltage magnitude and angle are assigned the
initial values 1.0 and 0, but these are not hard constraints: a feasible
point of the built problem need not satisfy V[1] = 1. -/
theorem C6_slack_initial_values :
    Vinit 1 = some 1 ∧ VaInit 1 = some 0 ∧
    ∃ a : Assign, Feasible a ∧ a.V 1 ≠ 1 :=
  ⟨rfl, rfl, aStar, aStar_feasible, by rw [show aStar.V 1 = 0 from rfl]; norm_num⟩

/-- C7: on optimal termination exactly the success line is printed;
otherwise the status line carries the literal termination condition, the
program does not abort, and the reporting loops still run. -/
theorem C7_termination_reporting :
    (∀ v : SolveVals, programOutput TermCond.optimal v =
      "Model solved successfully!" :: reportLines v) ∧
    (∀ (tc : TermCond) (v : SolveVals), tc ≠ TermCond.optimal →
      programOutput tc v =
        ("Model could not be solved. Termination condition: " ++ tcText tc) ::
          reportLines v) := by
  constructor
  · intro v
    rfl
  · intro tc v h
    simp [programOutput, statusLine, h]

/-- Witness for C7: the infeasible condition with no values. -/
theorem C7_termination_reporting_witness :
    programOutput TermCond.infeasible noVals =
      ("Model could not be solved. Termination condition: " ++
        tcText TermCond.infeasible) :: reportLines noVals :=
  C7_termination_reporting.2 TermCond.infeasible noVals (by decide)

/-- C8 fails as stated: the output contains a header line (and a first
generator loop without the MW unit) beyond the claimed shape of status
line plus Generator-MW lines plus Bus-Va lines. -/
theorem C8_counterexample :
    "Active Power Output (Pg) in MW:" ∈ programOutput TermCond.optimal noVals ∧
    "Active Power Output (Pg) in MW:" ∉ claimedOutput TermCond.optimal noVals ∧
    programOutput TermCond.optimal noVals ≠ claimedOutput TermCond.optimal noVals := by
  decide

/-- C8 amended: the output is the status line, then per-bus
`Generator i: Pg = value` lines (value scaled by Sbase, no unit), then
`Bus i: Va = value` lines (unscaled), then a header plus per-bus
`Generator i: Pg = value MW` lines, then a header plus per-bus
`Generator i: Qg = value MVar` lines; in each loop a bus whose variable
has no value is silently skipped and produces no line. -/
theorem C8_output_structure :
    (∀ (tc : TermCond) (v : SolveVals),
      programOutput tc v =
        statusLine tc ::
          (pgLines v ++ vaLines v ++
            ("Active Power Output (Pg) in MW:" :: pgMWLines v) ++
            ("Reactive Power Output (Qg) in MVar:" :: qgLines v))) ∧
    (∀ (v : SolveVals) (i : Nat) (q : ℚ), i ∈ buses → v.PgV i = some q →
      ("Generator " ++ toString i ++ ": Pg = " ++ toString (q * Sbase)) ∈ pgLines v ∧
      ("Generator " ++ toString i ++ ": Pg = " ++ toString (q * Sbase) ++ " MW") ∈
        pgMWLines v) ∧
    (∀ (v : SolveVals) (i : Nat) (q : ℚ), i ∈ buses → v.VaV i = some q →
      ("Bus " ++ toString i ++ ": Va = " ++ toString q) ∈ vaLines v) ∧
    (∀ v : SolveVals,
      (pgLines v).length = (buses.filter (fun i => (v.PgV i).isSome)).length ∧
      (vaLines v).length = (buses.filter (fun i => (v.VaV i).isSome)).length ∧
      (qgLines v).length = (buses.filter (fun i => (v.QgV i).isSome)).length) := by
  refine ⟨fun _ _ => rfl, ?_, ?_, ?_⟩
  · intro v i q hi hq
    constructor <;> exact List.mem_filterMap.mpr ⟨i, hi, by simp [hq]⟩
  · intro v i q hi hq
    exact List.mem_filterMap.mpr ⟨i, hi, by simp [hq]⟩
  · intro v
    refine ⟨?_, ?_, ?_⟩
    · rw [pgLines, length_filterMap_isSome]
      simp [Option.isSome_map']
    · rw [vaLines, length_filterMap_isSome]
      simp [Option.isSome_map']
    · rw [qgLines, length_filterMap_isSome]
      simp [Option.isSome_map']

/-- Witness for C8: the line of generator 1 appears in the first loop. -/
theorem C8_output_structure_witness :
    ("Generator " ++ toString (1 : Nat) ++ ": Pg = " ++ toString ((1 : ℚ) * Sbase)) ∈
      pgLines allVals :=
  (C8_output_structure.2.1 allVals 1 1 (by decide) rfl).1

/-- C9: any variant of the line table with a row referencing a bus outside
the declared bus set makes the builder fail with an error before any
constraint is built. -/
theorem C9_invalid_line_bus_fails :
    ∀ (ln : List ((Nat × Nat) × LineData)), ∀ e ∈ ln,
      (e.1.1 ∉ buses ∨ e.1.2 ∉ buses) →
      ∃ msg, buildModelOn ln = Except.error msg := by
  intro ln e he hbad
  cases hd : ln.find? (fun e => e.2.x = 0) with
  | some e0 =>
    refine ⟨"ZeroDivisionError in bij at " ++ toString e0.1, ?_⟩
    unfold buildModelOn deriveStep
    rw [hd]
    rfl
  | none =>
    cases hb : ln.find? (fun e => ¬ (e.1.1 ∈ buses ∧ e.1.2 ∈ buses)) with
    | some e1 =>
      refine ⟨"Index " ++ toString e1.1 ++ " is not valid for indexed component Pij", ?_⟩
      unfold buildModelOn deriveStep pijBoundStep
      rw [hd, hb]
      rfl
    | none =>
      exfalso
      have hme := List.find?_eq_none.mp hb e he
      simp at hme
      rcases hbad with h | h
      · exact h hme.1
      · exact h hme.2

/-- Witness for C9: adding a line from bus 1 to the undeclared bus 6
makes the builder error out. -/
theorem C9_invalid_line_bus_fails_witness :
    ∃ msg, buildModelOn badLN = Except.error msg :=
  C9_invalid_line_bus_fails badLN ((1, 6), badLine) (by simp [badLN]) (by decide)

/-- C3: the objective minimized by the model equals the sum over the
generator buses 1, 3, 4, 5 of `Pg[i] b[i] Sbase + Pg[i]^2 b[i] Sbase^2 +
b[i]` with Sbase = 100 and b from GenD; no other variable (in particular
not `Pg[2]`) contributes, and the sense is minimization. -/
theorem C3_objective :
    (∀ a : Assign, objective_rule a = specCost a) ∧
    (∀ a a' : Assign, (∀ i ∈ genBuses, a.Pg i = a'.Pg i) →
      objective_rule a = objective_rule a') ∧
    objectiveSense = Sense.minimize := by
  refine ⟨?_, ?_, rfl⟩
  · intro a
    simp [objective_rule, specCost, GenD, genBuses, bCoef, lookupGen, lookup, Sbase]
    ring
  · intro a a' h
    have h1 := h 1 (by decide)
    have h3 := h 3 (by decide)
    have h4 := h 4 (by decide)
    have h5 := h 5 (by decide)
    simp [objective_rule, GenD, h1, h3, h4, h5]

/-- Witness for C3: moving only `Pg[2]` leaves the objective unchanged. -/
theorem C3_objective_witness : objective_rule aPg2 = objective_rule aZero :=
  C3_objective.2.1 aPg2 aZero (by intro i hi; fin_cases hi <;> simp [aPg2, aZero])

/-- C4: `Pg` and `Qg` carry the scaled generator bounds exactly on the
generator buses 1, 3, 4, 5; `Va` is bounded to `[-pi/2, pi/2]` on every
bus; `V` has no bounds; `Pg[2]` and `Qg[2]` are free with no bounds. -/
theorem C4_variable_bounds :
    (PgBnd 1 = (some 0, some (21/10)) ∧ QgBnd 1 = (some (-(63/40)), some (63/40)) ∧
     PgBnd 3 = (some 0, some (26/5)) ∧ QgBnd 3 = (some (-(39/10)), some (39/10)) ∧
     PgBnd 4 = (some 0, some 2) ∧ QgBnd 4 = (some (-(3/2)), some (3/2)) ∧
     PgBnd 5 = (some 0, some 6) ∧ QgBnd 5 = (some (-(9/2)), some (9/2))) ∧
    (∀ i : Nat, (PgBnd i = (none, none) ∧ QgBnd i = (none, none)) ∨ i ∈ genBuses) ∧
    (VaBnd 1 = (some (-(Real.pi / 2)), some (Real.pi / 2)) ∧
     VaBnd 2 = (some (-(Real.pi / 2)), some (Real.pi / 2)) ∧
     VaBnd 3 = (some (-(Real.pi / 2)), some (Real.pi / 2)) ∧
     VaBnd 4 = (some (-(Real.pi / 2)), some (Real.pi / 2)) ∧
     VaBnd 5 = (some (-(Real.pi / 2)), some (Real.pi / 2))) ∧
    (∀ i : Nat, VBnd i = (none, none)) ∧
    PgBnd 2 = (none, none) ∧ QgBnd 2 = (none, none) := by
  refine ⟨?_, ?_, ?_, fun _ => rfl, rfl, rfl⟩
  · refine ⟨?_, ?_, ?_, ?_, ?_, ?_, ?_, ?_⟩ <;>
      simp only [PgBnd, QgBnd, lookupGen_1, lookupGen_3, lookupGen_4, lookupGen_5] <;>
      norm_num [Sbase]
  · intro i
    by_cases h : i ∈ genBuses
    · right
      exact h
    · left
      simp [PgBnd, QgBnd, lookupGen_eq_none i h]
  · refine ⟨?_, ?_, ?_, ?_, ?_⟩ <;> simp [VaBnd, buses]

/-- C5 fails as stated: the pair (1, 2) is a declared line, yet `Qij[1,2]`
carries no thermal bounds at all. -/
theorem C5_counterexample :
    cx (1, 2) = 1 ∧ QijBnd (1, 2) = (none, none) ∧
    QijBnd (1, 2) ≠ (some (-4), some 4) :=
  ⟨rfl, rfl, by decide⟩

/-- C5 amended: only the `Pij` variables of declared line pairs carry the
scaled thermal bounds; every other `Pij` and every `Qij` is unbounded. -/
theorem C5_flow_bounds :
    (PijBnd (1, 2) = (some (-4), some 4) ∧ PijBnd (1, 3) = (some (-4), some 4) ∧
     PijBnd (1, 5) = (some (-4), some 4) ∧ PijBnd (2, 3) = (some (-4), some 4) ∧
     PijBnd (3, 4) = (some (-4), some 4) ∧
     PijBnd (4, 5) = (some (-(12/5)), some (12/5))) ∧
    (∀ p : Nat × Nat, PijBnd p = (none, none) ∨ p ∈ LNpairs) ∧
    (∀ p : Nat × Nat, QijBnd p = (none, none)) := by
  refine ⟨?_, ?_, fun _ => rfl⟩
  · refine ⟨?_, ?_, ?_, ?_, ?_, ?_⟩ <;>
      simp only [PijBnd, lookupLN_12, lookupLN_13, lookupLN_15, lookupLN_23,
        lookupLN_34, lookupLN_45] <;>
      norm_num [Sbase]
  intro p
  by_cases h : p ∈ LNpairs
  · right
    exact h
  · left
    simp [PijBnd, lookupLN_eq_none p h]

/-- C10: every line row has nonzero resistance and reactance, so the
impedance magnitude is positive, the susceptance 1/x divides by a nonzero
value, and the r = 0 fallback branch of theta is never taken. -/
theorem C10_line_parameters :
    ∀ e ∈ LN, e.2.r ≠ 0 ∧ e.2.x ≠ 0 ∧ 0 < z e.1 ∧
      bij e.1 = some (1 / e.2.x) ∧
      thOf e.2 = Real.arctan ((e.2.x : ℝ) / (e.2.r : ℝ)) := by
  intro e he
  fin_cases he <;>
    refine ⟨by norm_num, by norm_num, ?_, rfl,
      by rw [thOf, if_neg (by norm_num)]⟩ <;>
  · simp only [z, lookupLN_12, lookupLN_13, lookupLN_15, lookupLN_23,
      lookupLN_34, lookupLN_45, zOf]
    apply Real.sqrt_pos.mpr
    push_cast
    norm_num

/-- Witness for C10, at the first line (1, 2) of the table. -/
theorem C10_line_parameters_witness :
    ((281 : ℚ) / 100000) ≠ 0 ∧ ((281 : ℚ) / 10000) ≠ 0 ∧ 0 < z (1, 2) ∧
    bij (1, 2) = some (1 / (281 / 10000)) ∧
    thOf ⟨281/100000, 281/10000, 712/100000, 400⟩ =
      Real.arctan (((281 / 10000 : ℚ) : ℝ) / ((281 / 100000 : ℚ) : ℝ)) :=
  C10_line_parameters ((1, 2), ⟨281/100000, 281/10000, 712/100000, 400⟩) (by simp [LN])

end OPF
